import Mathlib

/-!
Shallow embedding of the configuration-translation and hot-reload layer of the
CCRemote server (`src/server/src/config.rs`) and its interactive log sink
(`src/server/src/main.rs`).

The deserialized configuration types (`DynamicFactoryConfig` and friends) are
embedded in the namespace `CCRemote.Config`, mirroring the `Deserialize`
structures of `config.rs` field by field.  The factory-side types that those
structures are translated into (`Filter`, `CraftingGridRecipe`, the process
config records, `Factory`) live in modules of the repository that are not part
of the given sources; their shape is reconstructed from how `config.rs`
constructs them, and the few places where the spec is the only authority are
marked `Modelled from the spec:` in their doc comments.

Machine integers are embedded as `Nat` (`u8`, `u16`, `u64`, `usize`) and `Int`
(`i32`); no arithmetic in the embedded fragment can overflow, so no wraparound
modelling is needed.  A Rust panic (from `expect` or `unreachable`) is embedded
as the `error` branch of `Except` or as `none` of `Option`.
-/

namespace CCRemote

/-! ### Item identity, filters, and factory-side data carriers -/

/-- Modelled from the spec: item identity as seen by Filters — the cached
metadata has a label and an internal name (the concrete `Detail` type lives in
the repository's `item` module, which is not among the given sources). -/
structure Detail where
  label : String
  name : String
deriving DecidableEq, Repr

/-- Modelled from the spec: one occupied slot — a quantity plus its cached
`Detail`. -/
structure DetailStack where
  quantity : Int
  detail : Detail
deriving DecidableEq, Repr

/-- Modelled from the spec: the snapshot of factory stock that a process
closure can read.  The real closures in `config.rs` receive `&Factory`; the
`Factory` type itself lives in the missing `factory` module, so the closures'
read-only view is modelled as the list of reachable stocks. -/
structure FactoryState where
  stocks : List (Detail × Int)

/-- The factory-side `Filter` enum, reconstructed from how
`ItemFilter::to_filter` in `config.rs` constructs its variants.  The `Custom`
variant carries a description string and a two-argument boolean predicate
(`Rc::new(|_, _| true)` in the source); the two argument types are opaque in
`config.rs` and are modelled as the item `Detail` and an `Int` quantity. -/
inductive Filter where
  | Label (value : String)
  | Name (value : String)
  | Both (label name : String)
  | Custom (desc : String) (func : Detail → Int → Bool)

/-- Projection of a `Custom` filter's predicate; `false` on the other
variants. -/
def Filter.customPred : Filter → Detail → Int → Bool
  | .Custom _ f, d, q => f d q
  | _, _, _ => false

/-- Bus access as built in `config.rs` (`BusAccess { client, inv_addr,
bus_addr }`). -/
structure BusAccess where
  client : String
  inv_addr : String
  bus_addr : String
deriving DecidableEq, Repr

/-- Basic access as built in `config.rs` (`BasicAccess { client, addr }`). -/
structure BasicAccess where
  client : String
  addr : String
deriving DecidableEq, Repr

/-- Fluid access as built in `config.rs`. -/
structure FluidAccess where
  client : String
  fluid_bus_addrs : List String
  tank_addr : String
deriving DecidableEq, Repr

/-- Redstone access as built in `config.rs` (`RedstoneAccess { client,
addr }`). -/
structure RedstoneAccess where
  client : String
  addr : String
deriving DecidableEq, Repr

/-- The recipe-side `SlottedInput`, reconstructed from the record expression in
`convert_recipe`: a filter, a total size per set, the `(slot, size)`
placements, and the backup policy fields. -/
structure SlottedInput where
  item : Filter
  size : Int
  slots : List (Nat × Int)
  allow_backup : Bool
  extra_backup : Int

/-- The `CraftingGridRecipe`, reconstructed from the record expression in
`convert_recipe`.  The element type of `outputs` is not visible in the given
sources (the source sets it to `Rc::new(Vec::new())`); per the spec, outputs
are routed by Filter matching, so it is modelled as `List Filter`.  The source
also sets `non_consumables` to an empty vector; its elements are modelled as
recipe inputs per the spec. -/
structure CraftingGridRecipe where
  outputs : List Filter
  inputs : List SlottedInput
  max_sets : Int
  non_consumables : List SlottedInput

/-- Chest storage config as built in `config.rs`: accesses plus the optional
max-stack-size override, which the source wraps as the constant function
`move |_| size`. -/
structure ChestConfig where
  accesses : List BusAccess
  override_max_stack_size : Option (Int → Int)

/-- Drawer storage config as built in `config.rs`. -/
structure DrawerConfig where
  accesses : List BusAccess
  filters : List Filter

/-- The closed union of storage variants a factory owns. -/
inductive Storage where
  | chest (c : ChestConfig)
  | drawer (c : DrawerConfig)

/-- Modelled from the spec: an opaque asynchronous task yielded by an external
Turtle program; `done` is the completed empty task (the source's
`async {}`), and `effect` a task that still performs observable work. -/
inductive AsyncTask where
  | done
  | effect (label : String) (rest : AsyncTask)
deriving DecidableEq, Repr

/-- ManualUI process config as built in `config.rs`. -/
structure ManualUiConfig where
  accesses : List BusAccess

/-- Workbench process config as built in `config.rs`. -/
structure WorkbenchConfig where
  name : String
  accesses : List BusAccess
  recipes : List CraftingGridRecipe

/-- Slotted process config as built in `config.rs`.  `to_extract` embeds the
source's `Option<Box<dyn Fn(&Factory, usize, &DetailStack) -> bool>>`, with
`&Factory` modelled as `FactoryState`. -/
structure SlottedConfig where
  name : String
  accesses : List BusAccess
  input_slots : List Nat
  to_extract : Option (FactoryState → Nat → DetailStack → Bool)
  recipes : List CraftingGridRecipe
  strict_priority : Bool

/-- Turtle process config as built in `config.rs`.  `program` embeds the
source's boxed two-argument asynchronous closure: per the spec it receives the
Factory handle (modelled as `FactoryState`) and an Access list, and yields an
asynchronous task. -/
structure TurtleConfig where
  name : String
  file_name : String
  client : String
  program : FactoryState → List BusAccess → AsyncTask

/-- RedstoneEmitter process config as built in `config.rs`; `output` embeds the
source's `Box<dyn Fn(&Factory) -> u8>` closure. -/
structure RedstoneEmitterConfig where
  accesses : List RedstoneAccess
  output : FactoryState → Nat

/-- The closed union of process variants a factory owns. -/
inductive Process where
  | manualUI (c : ManualUiConfig)
  | workbench (c : WorkbenchConfig)
  | slotted (c : SlottedConfig)
  | turtle (c : TurtleConfig)
  | redstoneEmitter (c : RedstoneEmitterConfig)

/-- Modelled from the spec: the Factory owns the bootstrap parameters of
`FactoryConfig` plus ordered Storages and ordered Processes; it is built once
per configuration and never structurally mutated afterwards.  The collaborator
handles of the source record (`tui`, `detail_cache`, `server`) are excluded
collaborators and carry no factory-relevant data beyond `server_port`, which
is kept.  `min_cycle_time` is in seconds (the source stores
`Duration::from_secs(min_cycle_time_secs)`). -/
structure Factory where
  server_port : Nat
  min_cycle_time : Nat
  log_clients : List String
  bus_accesses : List BasicAccess
  fluid_bus_accesses : List FluidAccess
  fluid_bus_capacity : Int
  backups : List BasicAccess
  fluid_backups : List FluidAccess
  storages : List Storage
  processes : List Process

/-- Modelled from the spec: `Factory::add_storage` appends one storage to the
ordered storage list. -/
def Factory.add_storage (f : Factory) (st : Storage) : Factory :=
  { f with storages := f.storages ++ [st] }

/-- Modelled from the spec: `Factory::add_process` appends one process to the
ordered process list. -/
def Factory.add_process (f : Factory) (p : Process) : Factory :=
  { f with processes := f.processes ++ [p] }

/-! ### Deserialized configuration types (`config.rs`) -/

namespace Config

/-- `BusAccessConfig` of `config.rs`. -/
structure BusAccessConfig where
  client : String
  addr : String
deriving DecidableEq, Repr

/-- `FluidBusConfig` of `config.rs`. -/
structure FluidBusConfig where
  client : String
  fluid_bus_addrs : List String
  tank_addr : String
deriving DecidableEq, Repr

/-- `ItemFilter` of `config.rs`. -/
inductive ItemFilter where
  | Label (value : String)
  | Name (value : String)
  | Both (label name : String)
  | Custom (desc : String)
deriving DecidableEq, Repr

/-- `SlotConfig` of `config.rs`. -/
structure SlotConfig where
  slot : Nat
  size : Int
deriving DecidableEq, Repr

/-- The deserialized `SlottedInput` of `config.rs` (distinct from the
recipe-side `SlottedInput` it is converted into). -/
structure SlottedInput where
  item : ItemFilter
  slots : List SlotConfig
  allow_backup : Bool
  extra_backup : Int
deriving DecidableEq, Repr

/-- `CraftingRecipe` of `config.rs`. -/
structure CraftingRecipe where
  outputs : List ItemFilter
  inputs : List SlottedInput
  max_sets : Int
deriving DecidableEq, Repr

/-- `StorageConfig` of `config.rs`. -/
inductive StorageConfig where
  | Chest (accesses : List BusAccessConfig) (override_max_stack_size : Option Int)
  | Drawer (accesses : List BusAccessConfig) (filters : List ItemFilter)
deriving DecidableEq, Repr

/-- `RedstoneRule` of `config.rs`; the signals are `u8`. -/
structure RedstoneRule where
  name : String
  off_signal : Nat
  on_signal : Nat
  trigger_items : List ItemFilter
deriving DecidableEq, Repr

/-- `ProcessConfig` of `config.rs`. -/
inductive ProcessConfig where
  | ManualUI (accesses : List BusAccessConfig)
  | Workbench (name : String) (accesses : List BusAccessConfig)
      (recipes : List CraftingRecipe)
  | Slotted (name : String) (accesses : List BusAccessConfig)
      (input_slots : List Nat) (extract_filter : Option String)
      (recipes : List CraftingRecipe) (strict_priority : Bool)
  | Turtle (name file_name client : String)
  | RedstoneEmitter (accesses : List BusAccessConfig)
      (output_rules : List RedstoneRule)
deriving DecidableEq, Repr

/-- `DynamicFactoryConfig` of `config.rs`. -/
structure DynamicFactoryConfig where
  server_port : Nat
  min_cycle_time_secs : Nat
  log_clients : List String
  bus_accesses : List BusAccessConfig
  fluid_bus_accesses : List FluidBusConfig
  fluid_bus_capacity : Int
  storages : List StorageConfig
  processes : List ProcessConfig
  backups : List BusAccessConfig
  fluid_backups : List FluidBusConfig
deriving DecidableEq, Repr

end Config

/-! ### Translation from configuration to factory objects (`config.rs`) -/

/-- `ItemFilter::to_filter` of `config.rs`.  The `Custom` arm keeps only the
description and installs the constant-true predicate `Rc::new(|_, _| true)`
(the source comment reads "Custom filters need special handling"). -/
def Config.ItemFilter.to_filter : Config.ItemFilter → Filter
  | .Label value => .Label value
  | .Name value => .Name value
  | .Both label name => .Both label name
  | .Custom desc => .Custom desc (fun _ _ => true)

/-- The `BusAccess` record expression repeated throughout
`build_factory_from_json`: both `inv_addr` and `bus_addr` are set to the
config's single `addr`. -/
def busAccessOfConfig (a : Config.BusAccessConfig) : BusAccess :=
  { client := a.client, inv_addr := a.addr, bus_addr := a.addr }

/-- The `BasicAccess` record expression of `build_factory_from_json`. -/
def basicAccessOfConfig (a : Config.BusAccessConfig) : BasicAccess :=
  { client := a.client, addr := a.addr }

/-- The `FluidAccess` record expression of `build_factory_from_json`. -/
def fluidAccessOfConfig (f : Config.FluidBusConfig) : FluidAccess :=
  { client := f.client, fluid_bus_addrs := f.fluid_bus_addrs
    tank_addr := f.tank_addr }

/-- The `RedstoneAccess` record expression of `build_factory_from_json`. -/
def redstoneAccessOfConfig (a : Config.BusAccessConfig) : RedstoneAccess :=
  { client := a.client, addr := a.addr }

/-- `convert_recipe` of `config.rs`.  Outputs are set to the empty vector
(source comment: "Need proper output conversion"); each input's `size` is the
sum of its slot sizes and its `slots` are the `(slot, size)` pairs in
declaration order; `non_consumables` is set to the empty vector. -/
def convert_recipe (recipe : Config.CraftingRecipe) : CraftingGridRecipe :=
  { outputs := []
    inputs := recipe.inputs.map fun input =>
      { item := input.item.to_filter
        size := (input.slots.map Config.SlotConfig.size).sum
        slots := input.slots.map fun s => (s.slot, s.size)
        allow_backup := input.allow_backup
        extra_backup := input.extra_backup }
    max_sets := recipe.max_sets
    non_consumables := [] }

/-- The `SlottedConfig` record expression of `build_factory_from_json`:
`to_extract` is present exactly when `extract_filter` is, and is then the
constant-true closure `move |_, _, _| true` regardless of the filter
string. -/
def slottedConfigOf (name : String) (accesses : List Config.BusAccessConfig)
    (input_slots : List Nat) (extract_f : Option String)
    (recipes : List Config.CraftingRecipe) (strict_p : Bool) : SlottedConfig :=
  { name := name
    accesses := accesses.map busAccessOfConfig
    input_slots := input_slots
    to_extract := extract_f.map fun _ => fun _ _ _ => true
    recipes := recipes.map convert_recipe
    strict_priority := strict_p }

/-- The `TurtleConfig` record expression of `build_factory_from_json`: the
installed `program` is the constant no-op closure `Box::new(|_, _| async {})`
(source comment: "Turtle processes require special handling since they're more
complex"); `file_name` is stored but does not influence the program. -/
def turtleConfigOf (name file_name client : String) : TurtleConfig :=
  { name := name, file_name := file_name, client := client
    program := fun _ _ => AsyncTask.done }

/-- The `RedstoneEmitterConfig` record expression of
`build_factory_from_json`: the output closure is
`Box::new(move |factory| rule.off_signal)` (source comment: "Implement
redstone logic based on output rules"), ignoring the factory argument. -/
def emitterConfigOf (accesses : List Config.BusAccessConfig)
    (rule : Config.RedstoneRule) : RedstoneEmitterConfig :=
  { accesses := accesses.map redstoneAccessOfConfig
    output := fun _ => rule.off_signal }

/-- One arm of the storage loop of `build_factory_from_json`. -/
def storageOfConfig : Config.StorageConfig → Storage
  | .Chest accesses oms =>
      .chest { accesses := accesses.map busAccessOfConfig
               override_max_stack_size := oms.map fun size => fun _ => size }
  | .Drawer accesses filters =>
      .drawer { accesses := accesses.map busAccessOfConfig
                filters := filters.map Config.ItemFilter.to_filter }

/-- One iteration of the storage loop of `build_factory_from_json`:
`factory.add_storage(...)` on the translated storage config. -/
def add_storage_from_config (f : Factory) (st : Config.StorageConfig) :
    Factory :=
  f.add_storage (storageOfConfig st)

/-- One iteration of the process loop of `build_factory_from_json`.  Every
variant calls `factory.add_process` once, except `RedstoneEmitter`, which
loops over its `output_rules` and adds one emitter process per rule. -/
def add_process_from_config (f : Factory) : Config.ProcessConfig → Factory
  | .ManualUI accesses =>
      f.add_process (.manualUI { accesses := accesses.map busAccessOfConfig })
  | .Workbench name accesses recipes =>
      f.add_process (.workbench
        { name := name
          accesses := accesses.map busAccessOfConfig
          recipes := recipes.map convert_recipe })
  | .Slotted name accesses input_slots extract_f recipes strict_p =>
      f.add_process (.slotted
        (slottedConfigOf name accesses input_slots extract_f recipes strict_p))
  | .Turtle name file_name client =>
      f.add_process (.turtle (turtleConfigOf name file_name client))
  | .RedstoneEmitter accesses output_rules =>
      output_rules.foldl
        (fun f rule => f.add_process (.redstoneEmitter (emitterConfigOf accesses rule)))
        f

/-- The pure core of `build_factory_from_json` in `config.rs`, applied to an
already-parsed configuration: populate the `FactoryConfig` fields, then run
the build closure, which adds every storage and then every process in
declaration order. -/
def build_factory (cfg : Config.DynamicFactoryConfig) : Factory :=
  let base : Factory :=
    { server_port := cfg.server_port
      min_cycle_time := cfg.min_cycle_time_secs
      log_clients := cfg.log_clients
      bus_accesses := cfg.bus_accesses.map basicAccessOfConfig
      fluid_bus_accesses := cfg.fluid_bus_accesses.map fluidAccessOfConfig
      fluid_bus_capacity := cfg.fluid_bus_capacity
      backups := cfg.backups.map basicAccessOfConfig
      fluid_backups := cfg.fluid_backups.map fluidAccessOfConfig
      storages := []
      processes := [] }
  let withStorages := cfg.storages.foldl add_storage_from_config base
  cfg.processes.foldl add_process_from_config withStorages

/-! ### Loading, boot, and hot reload (`config.rs`) -/

/-- Modelled from the spec: the configuration source as observed at one read.
Reading the file and JSON parsing are excluded collaborators, so a read either
fails (`unreadable`), yields text that does not parse (`malformed`), or yields
a parsed `DynamicFactoryConfig` (`valid`). -/
inductive ConfigDoc where
  | unreadable
  | malformed
  | valid (cfg : Config.DynamicFactoryConfig)

/-- `load_dynamic_config` of `config.rs`: `fs::read_to_string(path).expect(...)`
then `serde_json::from_str(&content).expect(...)`.  Both `expect` calls panic
on failure; a panic is embedded as the `error` branch carrying the `expect`
message. -/
def load_dynamic_config : ConfigDoc → Except String Config.DynamicFactoryConfig
  | .unreadable => .error "Failed to read config file"
  | .malformed => .error "Failed to parse config file"
  | .valid cfg => .ok cfg

/-- `build_factory_from_json` of `config.rs`: one `load_dynamic_config` read,
then the factory is built entirely from that single parsed document.  A panic
in loading propagates. -/
def build_factory_from_json (doc : ConfigDoc) : Except String Factory :=
  (load_dynamic_config doc).map build_factory

/-- Outcome of running the hot-reload watcher thread of
`start_factory_hot_reload` over a sequence of observed file-change events:
the shared factory reference afterwards, whether the watcher thread is still
alive, the lines the handler printed to stdout, and the messages it wrote to
the Tui log sink. -/
structure WatcherRun where
  factoryRef : Option Factory
  alive : Bool
  stdoutLines : List String
  sinkMessages : List String

/-- The event loop of `start_factory_hot_reload` in `config.rs`, driven by the
documents observed at each file-change event.  On an event it calls
`build_factory_from_json` and assigns the result into the shared
`Arc<Mutex<Option<...>>>` under the lock, printing a stdout notice; the
handler never writes to the Tui log sink.  A build panic unwinds the watcher
thread: the reference keeps its previous value and no further event is ever
processed. -/
def hot_reload_run : Option Factory → List ConfigDoc → WatcherRun
  | st, [] => ⟨st, true, [], []⟩
  | st, doc :: rest =>
    match build_factory_from_json doc with
    | .ok f =>
        let r := hot_reload_run (some f) rest
        { r with stdoutLines :=
            "Factory configuration reloaded from JSON." :: r.stdoutLines }
    | .error _ => ⟨st, false, [], []⟩

/-! ### The interactive log sink (`main.rs`) -/

/-- The `ratatui` colors used by `Tui::log` in `main.rs`. -/
inductive Color where
  | Reset
  | LightYellow
  | LightBlue
  | LightRed
  | LightMagenta
  | Green
  | Red
deriving DecidableEq, Repr

/-- One styled log line, as produced by `Line::styled(msg, color)`. -/
structure Line where
  msg : String
  color : Color
deriving DecidableEq, Repr

/-- The color match of `Tui::log` in `main.rs`; the wildcard arm is
`unreachable!()`, embedded as `none`. -/
def colorOfCode : Nat → Option Color
  | 0 => some .Reset
  | 1 => some .LightYellow
  | 3 => some .LightBlue
  | 6 => some .LightRed
  | 10 => some .LightMagenta
  | 13 => some .Green
  | 14 => some .Red
  | _ => none

/-- `Tui::log` of `main.rs`: translate the severity code to a color (panicking
on an unknown code) and push the styled line onto the back of the log
buffer. -/
def Tui.log (logs : List Line) (msg : String) (color : Nat) :
    Option (List Line) :=
  (colorOfCode color).map fun c => logs ++ [{ msg := msg, color := c }]

/-! ### Characterization of the build loops -/

/-- The processes one `ProcessConfig` entry contributes, in order: one per
variant, except `RedstoneEmitter`, which contributes one emitter per output
rule. -/
def processesOfConfig : Config.ProcessConfig → List Process
  | .ManualUI accesses =>
      [.manualUI { accesses := accesses.map busAccessOfConfig }]
  | .Workbench name accesses recipes =>
      [.workbench
        { name := name
          accesses := accesses.map busAccessOfConfig
          recipes := recipes.map convert_recipe }]
  | .Slotted name accesses input_slots extract_f recipes strict_p =>
      [.slotted (slottedConfigOf name accesses input_slots extract_f recipes strict_p)]
  | .Turtle name file_name client =>
      [.turtle (turtleConfigOf name file_name client)]
  | .RedstoneEmitter accesses output_rules =>
      output_rules.map fun rule => .redstoneEmitter (emitterConfigOf accesses rule)

/-- The concatenated process contributions of a configuration's process
list. -/
def processesOfConfigs : List Config.ProcessConfig → List Process
  | [] => []
  | p :: ps => processesOfConfig p ++ processesOfConfigs ps

theorem emitter_loop_eq (accesses : List Config.BusAccessConfig) :
    ∀ (rules : List Config.RedstoneRule) (f : Factory),
      rules.foldl
        (fun f rule => f.add_process (.redstoneEmitter (emitterConfigOf accesses rule))) f
      = { f with processes :=
            f.processes ++ rules.map fun rule =>
              Process.redstoneEmitter (emitterConfigOf accesses rule) } := by
  intro rules
  induction rules with
  | nil => intro f; simp [Factory.add_process]
  | cons rule rules ih =>
      intro f
      rw [List.foldl_cons, ih]
      simp [Factory.add_process]

theorem add_process_from_config_eq (f : Factory) (p : Config.ProcessConfig) :
    add_process_from_config f p
      = { f with processes := f.processes ++ processesOfConfig p } := by
  cases p with
  | ManualUI a => simp [add_process_from_config, processesOfConfig, Factory.add_process]
  | Workbench n a r => simp [add_process_from_config, processesOfConfig, Factory.add_process]
  | Slotted n a s e r sp => simp [add_process_from_config, processesOfConfig, Factory.add_process]
  | Turtle n fn c => simp [add_process_from_config, processesOfConfig, Factory.add_process]
  | RedstoneEmitter a rules =>
      simp [add_process_from_config, processesOfConfig, emitter_loop_eq]

theorem foldl_add_process_eq :
    ∀ (ps : List Config.ProcessConfig) (f : Factory),
      ps.foldl add_process_from_config f
        = { f with processes := f.processes ++ processesOfConfigs ps } := by
  intro ps
  induction ps with
  | nil => intro f; simp [processesOfConfigs]
  | cons p ps ih =>
      intro f
      rw [List.foldl_cons, add_process_from_config_eq, ih]
      simp [processesOfConfigs]

theorem foldl_add_storage_eq :
    ∀ (ss : List Config.StorageConfig) (f : Factory),
      ss.foldl add_storage_from_config f
        = { f with storages := f.storages ++ ss.map storageOfConfig } := by
  intro ss
  induction ss with
  | nil => intro f; simp
  | cons st ss ih =>
      intro f
      rw [List.foldl_cons]
      show ss.foldl add_storage_from_config (Factory.add_storage f (storageOfConfig st)) = _
      rw [ih]
      simp [Factory.add_storage]

/-- Full characterization of `build_factory`: every field of the built Factory
comes from the one parsed configuration document. -/
theorem build_factory_eq (cfg : Config.DynamicFactoryConfig) :
    build_factory cfg
      = { server_port := cfg.server_port
          min_cycle_time := cfg.min_cycle_time_secs
          log_clients := cfg.log_clients
          bus_accesses := cfg.bus_accesses.map basicAccessOfConfig
          fluid_bus_accesses := cfg.fluid_bus_accesses.map fluidAccessOfConfig
          fluid_bus_capacity := cfg.fluid_bus_capacity
          backups := cfg.backups.map basicAccessOfConfig
          fluid_backups := cfg.fluid_backups.map fluidAccessOfConfig
          storages := cfg.storages.map storageOfConfig
          processes := processesOfConfigs cfg.processes } := by
  dsimp only [build_factory]
  rw [foldl_add_storage_eq, foldl_add_process_eq]
  simp

/-! ### Claims -/

/-- Claim C1.  A configuration failure is fatal at initial boot (the load
panic propagates out of `build_factory_from_json`), but at hot reload the code
diverges from the claim: the panic in the watcher thread leaves the previous
Factory reference in place, yet it kills the watcher (`alive = false`) — so a
later valid configuration B is never applied — and the handler writes nothing
to the log sink. -/
theorem c1_reload_config_error_kills_watcher (fA : Factory)
    (B : Config.DynamicFactoryConfig) :
    build_factory_from_json ConfigDoc.malformed
        = Except.error "Failed to parse config file"
  ∧ build_factory_from_json ConfigDoc.unreadable
        = Except.error "Failed to read config file"
  ∧ hot_reload_run (some fA) [ConfigDoc.malformed, ConfigDoc.valid B]
        = { factoryRef := some fA, alive := false
            stdoutLines := [], sinkMessages := [] } :=
  ⟨rfl, rfl, rfl⟩

/-- Claim C2.  A successful reload swaps in exactly the Factory built from the
single document read at that event — the result does not depend on the
previously active Factory — every parameter of the new Factory comes from
that document, and the reference is only ever replaced by a successfully
built Factory (on any other outcome it is left unchanged). -/
theorem c2_reload_swaps_in_factory_built_from_single_doc (fA : Factory)
    (B : Config.DynamicFactoryConfig) :
    hot_reload_run (some fA) [ConfigDoc.valid B]
        = { factoryRef := some (build_factory B), alive := true
            stdoutLines := ["Factory configuration reloaded from JSON."]
            sinkMessages := [] }
  ∧ (build_factory B).min_cycle_time = B.min_cycle_time_secs
  ∧ (build_factory B).server_port = B.server_port
  ∧ (build_factory B).log_clients = B.log_clients
  ∧ (build_factory B).storages = B.storages.map storageOfConfig
  ∧ (build_factory B).processes = processesOfConfigs B.processes
  ∧ ∀ (st : Option Factory) (doc : ConfigDoc),
      (hot_reload_run st [doc]).factoryRef = st
      ∨ ∃ cfg, doc = ConfigDoc.valid cfg
          ∧ (hot_reload_run st [doc]).factoryRef = some (build_factory cfg) := by
  refine ⟨rfl, ?_, ?_, ?_, ?_, ?_, ?_⟩
  · rw [build_factory_eq]
  · rw [build_factory_eq]
  · rw [build_factory_eq]
  · rw [build_factory_eq]
  · rw [build_factory_eq]
  · intro st doc
    cases doc with
    | unreadable => exact Or.inl rfl
    | malformed => exact Or.inl rfl
    | valid cfg => exact Or.inr ⟨cfg, rfl, rfl⟩

/-- Claim C3.  The output function of every emitter built from configuration
ignores the factory state and always returns the rule's `off_signal`; in
particular, for a rule with `off_signal = 0` and `on_signal = 15` it returns
0 even in states where the trigger filter matches stock, never 15. -/
theorem c3_emitter_output_ignores_state (acc : List Config.BusAccessConfig)
    (rule : Config.RedstoneRule) (st : FactoryState) :
    (emitterConfigOf acc rule).output st = rule.off_signal
  ∧ (emitterConfigOf acc
        { name := "r", off_signal := 0, on_signal := 15
          trigger_items := [Config.ItemFilter.Label "item"] }).output st = 0
  ∧ (emitterConfigOf acc
        { name := "r", off_signal := 0, on_signal := 15
          trigger_items := [Config.ItemFilter.Label "item"] }).output st
      ≠ (15 : Nat) :=
  ⟨rfl, rfl, by simp [emitterConfigOf]⟩

/-- Claim C4.  `convert_recipe` discards a recipe's declared outputs: the
built `CraftingGridRecipe.outputs` is always the empty list, so a recipe
declaring an output does not carry it. -/
theorem c4_converted_recipe_outputs_empty (r : Config.CraftingRecipe) :
    (convert_recipe r).outputs = []
  ∧ (convert_recipe
        { outputs := [Config.ItemFilter.Label "iron"], inputs := [], max_sets := 1 }).outputs
      ≠ [Config.ItemFilter.to_filter (Config.ItemFilter.Label "iron")] :=
  ⟨rfl, by simp [convert_recipe]⟩

/-- Claim C5.  The program installed for a Turtle process is the constant
no-op task, identical for any two `file_name` references; only the
`file_name` string itself is retained. -/
theorem c5_turtle_program_is_noop (n fn₁ fn₂ c : String) (fs : FactoryState)
    (accs : List BusAccess) :
    (turtleConfigOf n fn₁ c).program fs accs = AsyncTask.done
  ∧ (turtleConfigOf n fn₁ c).program = (turtleConfigOf n fn₂ c).program
  ∧ (turtleConfigOf n fn₁ c).file_name = fn₁ :=
  ⟨rfl, rfl, rfl⟩

/-- Claim C6.  The processes of a built Factory are the ordered contributions
of its configured process entries, and a `RedstoneEmitter` entry with `n`
output rules contributes exactly `n` emitter processes, each carrying the
entry's translated accesses. -/
theorem c6_one_emitter_process_per_rule (cfg : Config.DynamicFactoryConfig)
    (acc : List Config.BusAccessConfig) (rules : List Config.RedstoneRule) :
    (build_factory cfg).processes = processesOfConfigs cfg.processes
  ∧ (processesOfConfig (.RedstoneEmitter acc rules)
      = rules.map fun rule => Process.redstoneEmitter (emitterConfigOf acc rule))
  ∧ (processesOfConfig (.RedstoneEmitter acc rules)).length = rules.length
  ∧ ∀ rule, (emitterConfigOf acc rule).accesses = acc.map redstoneAccessOfConfig := by
  refine ⟨?_, rfl, ?_, fun _ => rfl⟩
  · rw [build_factory_eq]
  · simp [processesOfConfig]

/-- Claim C7.  Each `SlottedInput` built by `convert_recipe` has `size` equal
to the sum of its configured slot sizes, its `slots` list is exactly the
configured `(slot, size)` pairs in declaration order, and consequently the
sizes carried by its placements sum to its total `size`. -/
theorem c7_slotted_input_size_and_slots (r : Config.CraftingRecipe) :
    ((convert_recipe r).inputs.map SlottedInput.size
        = r.inputs.map fun i => (i.slots.map Config.SlotConfig.size).sum)
  ∧ ((convert_recipe r).inputs.map SlottedInput.slots
        = r.inputs.map fun i => i.slots.map fun s => (s.slot, s.size))
  ∧ ∀ inp ∈ (convert_recipe r).inputs, (inp.slots.map Prod.snd).sum = inp.size := by
  refine ⟨?_, ?_, ?_⟩
  · simp [convert_recipe, Function.comp]
  · simp [convert_recipe, Function.comp]
  · intro inp hmem
    simp only [convert_recipe, List.mem_map] at hmem
    obtain ⟨i, _, rfl⟩ := hmem
    simp [List.map_map, Function.comp_def]

theorem c7_slotted_input_size_and_slots_witness :
    (([((0 : Nat), (2 : Int)), (1, 3)].map Prod.snd).sum = (5 : Int)) := by
  have h := (c7_slotted_input_size_and_slots
    { outputs := []
      inputs := [{ item := Config.ItemFilter.Label "x"
                   slots := [{ slot := 0, size := 2 }, { slot := 1, size := 3 }]
                   allow_backup := false, extra_backup := 0 }]
      max_sets := 1 }).2.2
  have h2 := h
    { item := Filter.Label "x"
      size := (([{ slot := 0, size := 2 }, { slot := 1, size := 3 }] :
                  List Config.SlotConfig).map Config.SlotConfig.size).sum
      slots := [(0, 2), (1, 3)]
      allow_backup := false, extra_backup := 0 }
    (by simp [convert_recipe, Config.ItemFilter.to_filter])
  exact h2

/-- Claim C8.  For every severity code in the fixed set of `Tui::log`, the
sink does not hit the unreachable arm: it appends the message styled with the
code's color to the back of the log buffer. -/
theorem c8_tui_log_no_panic (logs : List Line) (msg : String) (c : Nat)
    (hc : c ∈ [0, 1, 3, 6, 10, 13, 14]) :
    ∃ col, colorOfCode c = some col
      ∧ Tui.log logs msg c = some (logs ++ [{ msg := msg, color := col }]) := by
  fin_cases hc <;> exact ⟨_, rfl, rfl⟩

theorem c8_tui_log_no_panic_witness :
    ∃ col, colorOfCode 6 = some col
      ∧ Tui.log [] "recipe failed" 6 = some ([] ++ [{ msg := "recipe failed", color := col }]) :=
  c8_tui_log_no_panic [] "recipe failed" 6 (by decide)

/-- Claim C9.  A configuration-loaded `Custom` filter keeps only the
description string and installs the constant-true predicate, so it matches
every item. -/
theorem c9_custom_filter_always_true (desc : String) (d : Detail) (q : Int) :
    Config.ItemFilter.to_filter (.Custom desc) = Filter.Custom desc (fun _ _ => true)
  ∧ (Config.ItemFilter.to_filter (.Custom desc)).customPred d q = true :=
  ⟨rfl, rfl⟩

/-- Claim C10.  A built Slotted process has a `to_extract` predicate exactly
when `extract_filter` is present in its configuration, and any such predicate
is constantly true, independent of the filter string's content. -/
theorem c10_to_extract_presence_and_constant (n : String)
    (acc : List Config.BusAccessConfig) (slots : List Nat) (ef : Option String)
    (rs : List Config.CraftingRecipe) (strict_p : Bool) :
    ((slottedConfigOf n acc slots ef rs strict_p).to_extract.isSome = ef.isSome)
  ∧ ∀ g, (slottedConfigOf n acc slots ef rs strict_p).to_extract = some g →
      ∀ fs i st, g fs i st = true := by
  constructor
  · cases ef <;> simp [slottedConfigOf]
  · intro g hg fs i st
    cases ef with
    | none => simp [slottedConfigOf] at hg
    | some s =>
        simp only [slottedConfigOf, Option.map_some] at hg
        cases hg
        rfl

theorem c10_to_extract_presence_and_constant_witness :
    ((slottedConfigOf "machine" [] [0] (some "anything") [] true).to_extract.isSome
        = (some "anything").isSome)
    ∧ (fun (_ : FactoryState) (_ : Nat) (_ : DetailStack) => true)
        ⟨[]⟩ 0 ⟨1, ⟨"a", "b"⟩⟩ = true := by
  have h := c10_to_extract_presence_and_constant "machine" [] [0] (some "anything") [] true
  exact ⟨h.1, h.2 _ rfl ⟨[]⟩ 0 ⟨1, ⟨"a", "b"⟩⟩⟩

end CCRemote
